import Mathlib

/-!
# Verification of the fast-weather pipeline

A shallow embedding of `src/fast-weather.py`: column declaration and header
colorization (`WeatherCol`), the WMO weather-code translator
(`WMOWeatherCodes.get_desc`), configuration loading (`FastWeatherConfig`),
the numeric rounding formatter (`round_2dec`), timestamp derivation and
formatting (`pd.date_range` with `inclusive="left"` plus
`strftime "[%a %b %d] %I:%M %p"`), request-parameter assembly, and table
assembly via a `pandas.DataFrame` built from a dict of equal-length arrays.

Python floats are modelled as exact rationals (`ℚ`); where a concrete
source literal matters its exact binary64 value is used.  Python exceptions
are modelled with `Except`; the error names follow the specification's
taxonomy (`ConfigError`, `UnknownCodeError`, `AlignmentError`).
-/

namespace FastWeather

/-- Two-digit zero-padded decimal rendering of a natural number below 100,
as produced by Python `%02d`-style padding inside `strftime` and `:.2f`. -/
def pad2 (n : ℕ) : String :=
  if n < 10 then "0" ++ toString n else toString n

/-- Truncation of a rational toward zero, the semantics of Python `int(x)`
applied to a float (T-division of numerator by denominator). -/
def truncQ (q : ℚ) : ℤ :=
  Int.tdiv q.num q.den

/-- Round-half-to-even on rationals, the rounding used by Python `round`
and by `str.format` fixed-point rendering. -/
def roundHalfEven (q : ℚ) : ℤ :=
  let f : ℤ := ⌊q⌋
  let r : ℚ := q - f
  if r < 1/2 then f
  else if 1/2 < r then f + 1
  else if f % 2 = 0 then f else f + 1

/-! ## Column declaration and header colorization (`WeatherCol`) -/

/-- The ANSI escape written by the source for the `blue` branch of
`WeatherCol.color_header` (`"\033[36m"`, which is the cyan SGR code). -/
def cyanEscape : String := "\x1b[36m"

/-- The ANSI reset escape (`"\033[0m"`). -/
def resetEscape : String := "\x1b[0m"

/-- `WeatherCol.color_header`: with `color = None` the header is returned
unchanged; with `color = 'blue'` it is wrapped in the cyan escape and the
reset escape; any other color value falls through unchanged. -/
def colorHeader (color : Option String) (header : String) : String :=
  match color with
  | none => header
  | some c => if c = "blue" then cyanEscape ++ header ++ resetEscape else header

/-- The default value of the `color` argument of `WeatherCol.__init__`. -/
def defaultColor : Option String := some "blue"

/-- A column as stored after `WeatherCol.__init__`: the (already colorized)
display header and the optional per-value formatting function
(`np.vectorize` of a scalar function, modelled element-wise). -/
structure WeatherCol where
  header : String
  format_function : Option (ℚ → String)

/-- `WeatherCol.__init__(header, format_function, color)`: stores the
formatter and the header after running `color_header` on it. -/
def mkWeatherCol (header : String) (format_function : Option (ℚ → String))
    (color : Option String) : WeatherCol :=
  { header := colorHeader color header, format_function := format_function }

/-! ## WMO weather-code translator (`WMOWeatherCodes`) -/

/-- The `night` sub-object of a weather-code table entry (the resource file
format: each entry has a `night` object with a `description` string). -/
structure WmoVariant where
  description : String
deriving DecidableEq

/-- One entry of the loaded weather-code table. -/
structure WmoEntry where
  night : WmoVariant
deriving DecidableEq

/-- The loaded `code_lut`: a JSON object keyed by stringified integer code,
modelled as an association list with distinct keys. -/
def WmoTable : Type := List (String × WmoEntry)

/-- `UnknownCodeError`: the failure of `code_lut[str(int(code))]` when the
key is absent (a `KeyError` in the source; the specification names it
`UnknownCodeError`). -/
inductive UnknownCodeError where
  | unknownCode : UnknownCodeError
deriving DecidableEq

/-- `WMOWeatherCodes.get_desc(code)`: look up
`code_lut[str(int(code))]['night']['description']`; the incoming code may be
a float and is truncated to an integer by `int(...)` before the lookup. -/
def get_desc (lut : WmoTable) (code : ℚ) : Except UnknownCodeError String :=
  match List.lookup (toString (truncQ code)) lut with
  | none => .error .unknownCode
  | some e => .ok e.night.description

/-! ## Configuration loading (`FastWeatherConfig`) -/

/-- A parsed JSON value, as far as the configuration file needs it. -/
inductive JVal where
  | num (q : ℚ)
  | str (s : String)
  | other
deriving DecidableEq

/-- `ConfigError`: the specification's name for any failure of
`FastWeatherConfig.__init__` (missing/unreadable file, malformed JSON,
missing required key — `FileNotFoundError`/`OSError`/`JSONDecodeError`/
`KeyError` in the source). -/
inductive ConfigError where
  | configError : ConfigError
deriving DecidableEq

/-- The configuration after a successful load: the three extracted values
`cfg['latitude']`, `cfg['longitude']`, `cfg['timezone']`. -/
structure Config where
  latitude : JVal
  longitude : JVal
  timezone : JVal
deriving DecidableEq

/-- `FastWeatherConfig.__init__`: the input is the outcome of reading and
parsing the file (`none` when the file is missing, unreadable or malformed,
`some kvs` for a parsed JSON object); the three required keys are then
extracted, a missing key being a `KeyError` (`ConfigError`). -/
def loadConfig (file : Option (List (String × JVal))) : Except ConfigError Config :=
  match file with
  | none => .error .configError
  | some kvs =>
    match List.lookup "latitude" kvs with
    | none => .error .configError
    | some la =>
      match List.lookup "longitude" kvs with
      | none => .error .configError
      | some lo =>
        match List.lookup "timezone" kvs with
        | none => .error .configError
        | some tz => .ok { latitude := la, longitude := lo, timezone := tz }

/-! ## The numeric rounding formatter (`round_2dec`) -/

/-- Fixed-two-decimal rendering of the exact value `n / 100`: sign, integer
part, decimal point, two zero-padded fraction digits. -/
def centiRender (n : ℤ) : String :=
  (if n < 0 then "-" else "") ++ toString (n.natAbs / 100) ++ "." ++ pad2 (n.natAbs % 100)

/-- Python `round(x, 2)` on an exact rational: round-half-even to the
hundredths grid. -/
def pyRound2 (x : ℚ) : ℚ :=
  (roundHalfEven (100 * x) : ℚ) / 100

/-- Python `f"{y:.2f}"` on an exact rational: round-half-even to two
decimal places, then render with exactly two digits after the point. -/
def formatF2 (y : ℚ) : String :=
  centiRender (roundHalfEven (100 * y))

/-- The source's `round_2dec` scalar function `lambda x: f"{round(x, 2):.2f}"`
(the `np.vectorize` wrapper is modelled by mapping this over the array).
Signed zero is not modelled: Python renders `-0.0` as `"-0.00"`. -/
def round_2dec (x : ℚ) : String :=
  formatF2 (pyRound2 x)

/-- The exact binary64 value of the Python literal `3.14159`
(`3537115888337719 / 2^50`). -/
def lit314159 : ℚ := 3537115888337719 / 1125899906842624

/-- The exact binary64 value of the Python literal `-0.005`
(`-5764607523034235 / 2^60`). -/
def litNeg0005 : ℚ := -5764607523034235 / 1152921504606846976

/-! ## Timestamp derivation and formatting

The source builds the `Time` column with
`pd.date_range(start, end, freq=Timedelta(seconds=interval), inclusive="left")`
over timezone-converted timestamps and renders it with
`strftime("[%a %b %d] %I:%M %p")`.  Instants are Unix seconds (`ℤ`); a
timezone is modelled by its UTC-offset function (seconds east of UTC at a
given instant), which covers DST; the calendar arithmetic of `strftime` is
the standard civil-from-days algorithm. -/

/-- A timezone as its UTC offset (in seconds) at each instant. -/
def Tz : Type := ℤ → ℤ

/-- Local wall-clock seconds of an instant under a timezone. -/
def localize (tz : Tz) (t : ℤ) : ℤ := t + tz t

/-- Days since the Unix epoch of a local wall-clock second count. -/
def localDays (lt : ℤ) : ℤ := Int.fdiv lt 86400

/-- Second of the local day, in `[0, 86400)`. -/
def secondsOfDay (lt : ℤ) : ℕ := (Int.emod lt 86400).toNat

/-- Local hour of day, in `[0, 24)` (`%H` before 12-hour conversion). -/
def hourOfDay (lt : ℤ) : ℕ := secondsOfDay lt / 3600

/-- Local minute of hour, in `[0, 60)` (`%M`). -/
def minuteOfHour (lt : ℤ) : ℕ := secondsOfDay lt % 3600 / 60

/-- The 12-hour-clock hour (`%I`): hours `0` and `12` render as `12`,
otherwise the hour modulo 12. -/
def hour12 (lt : ℤ) : ℕ :=
  if hourOfDay lt % 12 = 0 then 12 else hourOfDay lt % 12

/-- The `%p` field: `AM` strictly before local noon, `PM` from noon on. -/
def meridiem (lt : ℤ) : String :=
  if hourOfDay lt < 12 then "AM" else "PM"

/-- Civil date (year, month `1..12`, day `1..31`) from days since the Unix
epoch, by the standard Gregorian civil-from-days algorithm. -/
def civilFromDays (z : ℤ) : ℤ × ℕ × ℕ :=
  let z2 := z + 719468
  let era := Int.fdiv z2 146097
  let doe : ℕ := (z2 - era * 146097).toNat
  let yoe : ℕ := (doe - doe / 1460 + doe / 36524 - doe / 146096) / 365
  let doy : ℕ := doe - (365 * yoe + yoe / 4 - yoe / 100)
  let mp : ℕ := (5 * doy + 2) / 153
  let dom : ℕ := doy - (153 * mp + 2) / 5 + 1
  let m : ℕ := if mp < 10 then mp + 3 else mp - 9
  ((yoe : ℤ) + era * 400 + (if m ≤ 2 then 1 else 0), m, dom)

/-- Day of month of a local wall-clock second count (`%d`, zero-padded). -/
def dayOfMonth (lt : ℤ) : ℕ := (civilFromDays (localDays lt)).2.2

/-- Abbreviated weekday name (`%a`); the Unix epoch day was a Thursday. -/
def weekdayAbbr (lt : ℤ) : String :=
  ["Sun", "Mon", "Tue", "Wed", "Thu", "Fri", "Sat"].getD
    ((Int.emod (localDays lt + 4) 7).toNat) ""

/-- Abbreviated month name (`%b`). -/
def monthAbbr (lt : ℤ) : String :=
  ["Jan", "Feb", "Mar", "Apr", "May", "Jun",
   "Jul", "Aug", "Sep", "Oct", "Nov", "Dec"].getD
    ((civilFromDays (localDays lt)).2.1 - 1) ""

/-- `strftime("[%a %b %d] %I:%M %p")` on a local wall-clock second count. -/
def strftimeLabel (lt : ℤ) : String :=
  "[" ++ weekdayAbbr lt ++ " " ++ monthAbbr lt ++ " " ++ pad2 (dayOfMonth lt)
    ++ "] " ++ pad2 (hour12 lt) ++ ":" ++ pad2 (minuteOfHour lt)
    ++ " " ++ meridiem lt

/-- The number of points of `pd.date_range(s, e, freq=d, inclusive="left")`:
the count of grid points `s + i * d` strictly before `e`
(`inclusive="left"` keeps the start and drops the end point). -/
def numPeriodsLeft (s e : ℤ) (d : ℕ) : ℕ := ((e - s).toNat + d - 1) / d

/-- `pd.date_range(s, e, freq=Timedelta(seconds=d), inclusive="left")` as a
list of instants. -/
def date_range (s e : ℤ) (d : ℕ) : List ℤ :=
  (List.range (numPeriodsLeft s e d)).map (fun i : ℕ => s + (i : ℤ) * (d : ℤ))

/-- The rendered `Time` column: the date range of the response's hourly
time window, timezone-converted and formatted. -/
def timeColumn (tz : Tz) (s e : ℤ) (d : ℕ) : List String :=
  (date_range s e d).map (fun t => strftimeLabel (localize tz t))

/-- The specification's timestamp sequence, following its words: starting
at `start`, stepping by `intervalSeconds`, up to but excluding `end`. -/
def specTimes (s e : ℤ) (d : ℕ) : List ℤ :=
  if _h : 0 < d ∧ s < e then s :: specTimes (s + d) e d else []
termination_by (e - s).toNat
decreasing_by omega

/-! ## Table assembly (`FastWeather.get` and `pd.DataFrame`) -/

/-- A cell of the assembled table: columns without a formatter keep their
raw numeric values, formatted columns hold strings. -/
inductive Cell where
  | num (q : ℚ)
  | str (s : String)
deriving DecidableEq

/-- `WeatherCol.format`: apply the vectorized formatting function
element-wise, or pass the raw array through when there is none. -/
def WeatherCol.format (col : WeatherCol) (data : List ℚ) : List Cell :=
  match col.format_function with
  | none => data.map Cell.num
  | some f => data.map (fun q => Cell.str (f q))

/-- The hourly block of the API response: the time window and one raw
numeric array per requested field, indexed in request order
(`hourly.Variables(idx)`). -/
structure HourlyBlock where
  time : ℤ
  timeEnd : ℤ
  interval : ℕ
  Variables : ℕ → List ℚ

/-- The header of the timestamp column, written literally in the source as
`"\033[36mTime\033[0m"`. -/
def timeHeader : String := "\x1b[36mTime\x1b[0m"

/-- Python dict assignment `d[k] = v`: an existing key keeps its position
and gets the new value; a new key is appended. -/
def dictInsert (k : String) (v : α) : List (String × α) → List (String × α)
  | [] => [(k, v)]
  | (k2, v2) :: rest =>
    if k2 = k then (k2, v) :: rest else (k2, v2) :: dictInsert k v rest

/-- The loop `for idx, key in enumerate(hourly_cols): ...`: starting from
index `i`, insert each column's formatted data under its header. -/
def insertHourlyCols (h : HourlyBlock) :
    ℕ → List (String × WeatherCol) → List (String × List Cell) →
    List (String × List Cell)
  | _, [], acc => acc
  | i, (_, col) :: rest, acc =>
    insertHourlyCols h (i + 1) rest
      (dictInsert col.header (col.format (h.Variables i)) acc)

/-- The `hourly_data` dict after the loop: the `Time` column first, then
one entry per column spec. -/
def hourlyData (tz : Tz) (h : HourlyBlock) (cols : List (String × WeatherCol)) :
    List (String × List Cell) :=
  insertHourlyCols h 0 cols
    [(timeHeader, (timeColumn tz h.time h.timeEnd h.interval).map Cell.str)]

/-- `AlignmentError`: the failure of `pd.DataFrame(data=...)` on arrays of
unequal length (a `ValueError` in pandas; the specification names it
`AlignmentError`). -/
inductive AlignmentError where
  | alignment : AlignmentError
deriving DecidableEq

/-- `pd.DataFrame(data=d)` on a dict of arrays: succeeds with the columns
as given iff all arrays have the same length. -/
def dataFrame (d : List (String × List Cell)) :
    Except AlignmentError (List (String × List Cell)) :=
  match d with
  | [] => .ok []
  | (k, v) :: rest =>
    if rest.all (fun kv => kv.2.length = v.length) then .ok ((k, v) :: rest)
    else .error .alignment

/-- The table-assembly part of `FastWeather.get`: build the `hourly_data`
dict and construct the data frame from it. -/
def assembleTable (tz : Tz) (h : HourlyBlock)
    (cols : List (String × WeatherCol)) :
    Except AlignmentError (List (String × List Cell)) :=
  dataFrame (hourlyData tz h cols)

/-- The enumerated column entries `(header, formatted values)` produced by
the loop starting at index `i`, in declaration order. -/
def colsEnum (h : HourlyBlock) : ℕ → List (String × WeatherCol) →
    List (String × List Cell)
  | _, [] => []
  | i, (_, col) :: rest =>
    (col.header, col.format (h.Variables i)) :: colsEnum h (i + 1) rest

/-! ## The declared column list and the request parameters -/

/-- The declared `hourly_cols` dict of the source, in declaration order,
parameterized by the scalar function underlying the vectorized
weather-code formatter `lambda code: wmo_codes.get_desc(code)` (whose
partiality on unknown codes is modelled by `get_desc`). -/
def hourly_cols (wdesc : ℚ → String) : List (String × WeatherCol) :=
  [("temperature_2m", mkWeatherCol "Temp (F)" (some round_2dec) defaultColor),
   ("apparent_temperature",
      mkWeatherCol "Feels Like (F)" (some round_2dec) defaultColor),
   ("weather_code", mkWeatherCol "Weather" (some wdesc) defaultColor),
   ("precipitation_probability", mkWeatherCol "Precip (%)" none defaultColor),
   ("precipitation", mkWeatherCol "Precip (in)" none defaultColor),
   ("relative_humidity_2m", mkWeatherCol "Humidity (%)" none defaultColor),
   ("dew_point_2m", mkWeatherCol "Dew Point" (some round_2dec) defaultColor),
   ("uv_index", mkWeatherCol "UV Index" none defaultColor)]

/-- `hourly_cols.keys()`: the requested hourly field list, in declaration
order. -/
def requestFields (cols : List (String × WeatherCol)) : List String :=
  cols.map Prod.fst

/-- The `params` dict of the request to the forecast endpoint. -/
structure RequestParams where
  latitude : JVal
  longitude : JVal
  forecast_hours : ℕ
  past_hours : ℕ
  hourly : List String
  timezone : JVal
  wind_speed_unit : String
  temperature_unit : String
  precipitation_unit : String
deriving DecidableEq

/-- The construction of `params` in `FastWeather.get`. -/
def buildParams (cfg : Config) (wdesc : ℚ → String) : RequestParams :=
  { latitude := cfg.latitude,
    longitude := cfg.longitude,
    forecast_hours := 12,
    past_hours := 0,
    hourly := requestFields (hourly_cols wdesc),
    timezone := cfg.timezone,
    wind_speed_unit := "mph",
    temperature_unit := "fahrenheit",
    precipitation_unit := "inch" }

/-! ## Sample values used to instantiate the general theorems -/

/-- A one-entry weather-code table. -/
def sampleWmo : WmoTable := [("3", { night := { description := "Overcast" } })]

/-- A parsed configuration file with the three required keys. -/
def sampleKvs : List (String × JVal) :=
  [("latitude", JVal.num (407/10)), ("longitude", JVal.num (-74)),
   ("timezone", JVal.str "America/New_York")]

/-- A fixed-offset timezone (UTC-4, e.g. America/New_York in summer). -/
def sampleTz : Tz := fun _ => -14400

/-- An hourly block whose time window is empty and whose value arrays are
all empty. -/
def sampleBlock : HourlyBlock :=
  { time := 1760000000, timeEnd := 1760000000, interval := 3600,
    Variables := fun _ => [] }

/-- The declared column list with a fixed weather-code description
function. -/
def cols0 : List (String × WeatherCol) := hourly_cols (fun _ => "")

/-! ## Helper lemmas -/

theorem truncQ_intCast (n : ℤ) : truncQ (n : ℚ) = n := by
  simp [truncQ, Int.tdiv_one]

theorem roundHalfEven_intCast (n : ℤ) : roundHalfEven (n : ℚ) = n := by
  unfold roundHalfEven
  norm_num

theorem round_2dec_eq_centiRender (x : ℚ) :
    round_2dec x = centiRender (roundHalfEven (100 * x)) := by
  unfold round_2dec formatF2 pyRound2
  rw [show (100 : ℚ) * ((roundHalfEven (100 * x) : ℚ) / 100)
        = ((roundHalfEven (100 * x) : ℤ) : ℚ) from by ring,
      roundHalfEven_intCast]

theorem pad2_eq :
    ∀ m < 100, pad2 m = String.mk [Nat.digitChar (m / 10), Nat.digitChar (m % 10)] := by
  decide

theorem digitChar_isDigit : ∀ m < 10, (Nat.digitChar m).isDigit = true := by
  decide

/-! ## Claim theorems: colorization, translator, configuration, rounding,
request parameters -/

/-- C9.  A column constructed with colorization left at its default has its
header wrapped in the cyan ANSI escape followed by the reset escape; with
colorization explicitly disabled (`color=None`) the header is unchanged. -/
theorem header_color_default (hd : String) (f : Option (ℚ → String)) :
    (mkWeatherCol hd f defaultColor).header = cyanEscape ++ hd ++ resetEscape
    ∧ cyanEscape = "\x1b[36m" ∧ resetEscape = "\x1b[0m"
    ∧ (mkWeatherCol hd f none).header = hd :=
  ⟨rfl, rfl, rfl, rfl⟩

/-- C10.  Any color value other than exactly `'blue'` (including `None`)
leaves the header as given; only `'blue'` triggers wrapping, and the escape
applied is the cyan code `\033[36m`. -/
theorem header_color_only_blue (hd : String) (f : Option (ℚ → String))
    (c : Option String) (hc : c ≠ some "blue") :
    (mkWeatherCol hd f c).header = hd
    ∧ (mkWeatherCol hd f (some "blue")).header = "\x1b[36m" ++ hd ++ "\x1b[0m" := by
  refine ⟨?_, rfl⟩
  match c with
  | none => rfl
  | some s =>
    have hs : s ≠ "blue" := fun h => hc (by rw [h])
    show colorHeader (some s) hd = hd
    simp [colorHeader, hs]

/-- Witness for C10 at `color = 'red'`. -/
theorem header_color_only_blue_witness :
    (some "red" ≠ some "blue")
    ∧ ((mkWeatherCol "Temp (F)" none (some "red")).header = "Temp (F)"
       ∧ (mkWeatherCol "Temp (F)" none (some "blue")).header
           = "\x1b[36m" ++ "Temp (F)" ++ "\x1b[0m") :=
  ⟨by decide, header_color_only_blue "Temp (F)" none (some "red") (by decide)⟩

/-- C7.  `describe` fails with `UnknownCodeError` exactly when the integer
form of the code is absent from the loaded table, and returns the entry's
night-time description when present. -/
theorem get_desc_lookup (lut : WmoTable) (code : ℚ) :
    (List.lookup (toString (truncQ code)) lut = none →
       get_desc lut code = .error .unknownCode)
    ∧ ∀ e : WmoEntry, List.lookup (toString (truncQ code)) lut = some e →
       get_desc lut code = .ok e.night.description := by
  constructor
  · intro h
    unfold get_desc
    rw [h]
  · intro e h
    unfold get_desc
    rw [h]

/-- Witness for C7: code `3.5` resolves through entry `"3"`, code `99` is
absent. -/
theorem get_desc_lookup_witness :
    get_desc sampleWmo (mkRat 7 2) = .ok "Overcast"
    ∧ get_desc sampleWmo 99 = .error .unknownCode :=
  ⟨(get_desc_lookup sampleWmo (mkRat 7 2)).2
      { night := { description := "Overcast" } } (by decide),
   (get_desc_lookup sampleWmo 99).1 (by decide)⟩

/-- C8.  A floating-point code is truncated to an integer before lookup, so
its description equals the description of its integer form. -/
theorem get_desc_float_eq_int (lut : WmoTable) (code : ℚ) :
    get_desc lut code = get_desc lut ((truncQ code : ℤ) : ℚ) := by
  unfold get_desc
  rw [truncQ_intCast]

/-- C6.  Configuration loading yields `ConfigError` for a missing,
unreadable or malformed file and for any file lacking one of the three
required keys, and succeeds with exactly the three extracted values
otherwise. -/
theorem loadConfig_spec (file : Option (List (String × JVal))) :
    (file = none → loadConfig file = .error .configError)
    ∧ (∀ kvs la lo tz, file = some kvs →
        List.lookup "latitude" kvs = some la →
        List.lookup "longitude" kvs = some lo →
        List.lookup "timezone" kvs = some tz →
        loadConfig file = .ok { latitude := la, longitude := lo, timezone := tz })
    ∧ (∀ kvs, file = some kvs →
        (List.lookup "latitude" kvs = none ∨ List.lookup "longitude" kvs = none ∨
         List.lookup "timezone" kvs = none) →
        loadConfig file = .error .configError) := by
  refine ⟨?_, ?_, ?_⟩
  · intro h
    rw [h]
    rfl
  · intro kvs la lo tz hf hla hlo htz
    subst hf
    simp only [loadConfig, hla, hlo, htz]
  · intro kvs hf hmiss
    subst hf
    rcases hmiss with h | h | h
    · simp only [loadConfig, h]
    · cases hx : List.lookup "latitude" kvs <;> simp only [loadConfig, hx, h]
    · cases hx : List.lookup "latitude" kvs <;>
        cases hy : List.lookup "longitude" kvs <;>
          simp only [loadConfig, hx, hy, h]

/-- Witness for C6: a complete sample file loads; `none` (missing file)
fails. -/
theorem loadConfig_spec_witness :
    loadConfig (some sampleKvs)
      = .ok { latitude := JVal.num (407/10), longitude := JVal.num (-74),
              timezone := JVal.str "America/New_York" }
    ∧ loadConfig none = .error .configError :=
  ⟨(loadConfig_spec (some sampleKvs)).2.1 sampleKvs (JVal.num (407/10))
      (JVal.num (-74)) (JVal.str "America/New_York") rfl rfl rfl rfl,
   (loadConfig_spec none).1 rfl⟩

/-- C5.  The rounding formatter renders its argument rounded half-even to
two decimal places with exactly two digits after the decimal point; the
binary64 value of `3.14159` formats to `"3.14"` and that of `-0.005`
to `"-0.01"`. -/
theorem round_2dec_correct :
    (∀ x : ℚ, round_2dec x = centiRender (roundHalfEven (100 * x)))
    ∧ (∀ x : ℚ, ∃ s1 : String, ∃ c1 c2 : Char,
        round_2dec x = s1 ++ "." ++ String.mk [c1, c2]
        ∧ c1.isDigit ∧ c2.isDigit)
    ∧ round_2dec lit314159 = "3.14"
    ∧ round_2dec litNeg0005 = "-0.01" := by
  refine ⟨round_2dec_eq_centiRender, ?_, ?_, ?_⟩
  · intro x
    refine ⟨(if roundHalfEven (100 * x) < 0 then "-" else "")
        ++ toString ((roundHalfEven (100 * x)).natAbs / 100),
      Nat.digitChar (((roundHalfEven (100 * x)).natAbs % 100) / 10),
      Nat.digitChar (((roundHalfEven (100 * x)).natAbs % 100) % 10), ?_, ?_, ?_⟩
    · rw [round_2dec_eq_centiRender]
      unfold centiRender
      rw [pad2_eq _ (Nat.mod_lt _ (by norm_num))]
    · exact digitChar_isDigit _ (by omega)
    · exact digitChar_isDigit _ (by omega)
  · rw [round_2dec_eq_centiRender]
    have h1 : roundHalfEven (100 * lit314159) = 314 := by
      unfold roundHalfEven lit314159
      norm_num
    rw [h1]
    decide
  · rw [round_2dec_eq_centiRender]
    have h2 : roundHalfEven (100 * litNeg0005) = -1 := by
      unfold roundHalfEven litNeg0005
      norm_num
    rw [h2]
    decide

/-- C3.  The request carries exactly the configuration's location and
timezone, a 12-hour horizon with 0 past hours, the declared field names in
declaration order, and mph/Fahrenheit/inch unit preferences. -/
theorem request_params (cfg : Config) (wdesc : ℚ → String) :
    (buildParams cfg wdesc).latitude = cfg.latitude
    ∧ (buildParams cfg wdesc).longitude = cfg.longitude
    ∧ (buildParams cfg wdesc).timezone = cfg.timezone
    ∧ (buildParams cfg wdesc).forecast_hours = 12
    ∧ (buildParams cfg wdesc).past_hours = 0
    ∧ (buildParams cfg wdesc).hourly = requestFields (hourly_cols wdesc)
    ∧ (buildParams cfg wdesc).hourly =
        ["temperature_2m", "apparent_temperature", "weather_code",
         "precipitation_probability", "precipitation", "relative_humidity_2m",
         "dew_point_2m", "uv_index"]
    ∧ (buildParams cfg wdesc).wind_speed_unit = "mph"
    ∧ (buildParams cfg wdesc).temperature_unit = "fahrenheit"
    ∧ (buildParams cfg wdesc).precipitation_unit = "inch" :=
  ⟨rfl, rfl, rfl, rfl, rfl, rfl, rfl, rfl, rfl, rfl⟩

/-! ## Timestamp sequence lemmas -/

theorem numPeriodsLeft_of_ge {s e : ℤ} {d : ℕ} (he : e ≤ s) :
    numPeriodsLeft s e d = 0 := by
  unfold numPeriodsLeft
  have h0 : (e - s).toNat = 0 := by omega
  rw [h0]
  rcases Nat.eq_zero_or_pos d with hd | hd
  · subst hd
    rfl
  · exact Nat.div_eq_of_lt (by omega)

theorem numPeriodsLeft_succ {s e : ℤ} {d : ℕ} (hd : 0 < d) (hse : s < e) :
    numPeriodsLeft s e d = numPeriodsLeft (s + d) e d + 1 := by
  unfold numPeriodsLeft
  have h2 : (e - (s + (d : ℤ))).toNat = (e - s).toNat - d := by omega
  rw [h2]
  set a := (e - s).toNat with ha
  have ha1 : 1 ≤ a := by omega
  have hL : (a + d - 1) / d = (a - 1) / d + 1 := by
    have h3 := Nat.div_eq_sub_div hd (show d ≤ a + d - 1 by omega)
    rw [h3, show a + d - 1 - d = a - 1 from by omega]
  rw [hL]
  rcases le_or_lt a d with hda | hda
  · rw [show a - d = 0 from by omega,
        Nat.div_eq_of_lt (show a - 1 < d from by omega),
        Nat.div_eq_of_lt (show 0 + d - 1 < d from by omega)]
  · rw [show a - d + d - 1 = a - 1 from by omega]

theorem date_range_eq_specTimes {d : ℕ} (hd : 0 < d) (s e : ℤ) :
    date_range s e d = specTimes s e d := by
  suffices H : ∀ (n : ℕ) (s e : ℤ), (e - s).toNat ≤ n →
      date_range s e d = specTimes s e d from
    H ((e - s).toNat) s e le_rfl
  intro n
  induction n with
  | zero =>
    intro s e h0
    have hse : ¬ s < e := by omega
    rw [specTimes, dif_neg (fun hc => hse hc.2)]
    unfold date_range
    rw [numPeriodsLeft_of_ge (by omega)]
    rfl
  | succ n ih =>
    intro s e hle
    by_cases hse : s < e
    · rw [specTimes, dif_pos ⟨hd, hse⟩, ← ih (s + d) e (by omega)]
      unfold date_range
      rw [numPeriodsLeft_succ hd hse, List.range_succ_eq_map, List.map_cons,
          List.map_map]
      congr 1
      · push_cast
        ring
      · congr 1
        funext i
        simp only [Function.comp_apply, Nat.succ_eq_add_one]
        push_cast
        ring
    · rw [specTimes, dif_neg (fun hc => hse hc.2)]
      unfold date_range
      rw [numPeriodsLeft_of_ge (by omega)]
      rfl

/-- C2.  The assembled row timestamps are exactly the arithmetic sequence
from `start` by `intervalSeconds` up to but excluding `end`, each localized
to the configured timezone and rendered as
`[<abbr weekday> <abbr month> <day>] <hour>:<minute> <AM/PM>` on a 12-hour
clock. -/
theorem table_time_labels (tz : Tz) (s e : ℤ) (d : ℕ) (hd : 0 < d) :
    timeColumn tz s e d = (specTimes s e d).map (fun t => strftimeLabel (localize tz t))
    ∧ ∀ lt : ℤ,
        strftimeLabel lt =
          "[" ++ weekdayAbbr lt ++ " " ++ monthAbbr lt ++ " " ++ pad2 (dayOfMonth lt)
            ++ "] " ++ pad2 (hour12 lt) ++ ":" ++ pad2 (minuteOfHour lt)
            ++ " " ++ meridiem lt
        ∧ 1 ≤ hour12 lt ∧ hour12 lt ≤ 12
        ∧ hour12 lt % 12 = hourOfDay lt % 12
        ∧ (meridiem lt = "AM" ↔ hourOfDay lt < 12) := by
  constructor
  · unfold timeColumn
    rw [date_range_eq_specTimes hd]
  · intro lt
    refine ⟨rfl, ?_, ?_, ?_, ?_⟩
    · unfold hour12
      split <;> omega
    · unfold hour12
      split <;> omega
    · unfold hour12
      split <;> omega
    · unfold meridiem
      by_cases hh : hourOfDay lt < 12
      · rw [if_pos hh]
        simp [hh]
      · rw [if_neg hh]
        constructor
        · intro hPM
          exact absurd hPM (by decide)
        · intro h12
          exact absurd h12 hh

/-- Witness for C2 at a two-hour window with hourly interval in a fixed
UTC-4 timezone. -/
theorem table_time_labels_witness :
    (0 < 3600)
    ∧ (timeColumn sampleTz 0 7200 3600
         = (specTimes 0 7200 3600).map (fun t => strftimeLabel (localize sampleTz t))
       ∧ ∀ lt : ℤ,
           strftimeLabel lt =
             "[" ++ weekdayAbbr lt ++ " " ++ monthAbbr lt ++ " " ++ pad2 (dayOfMonth lt)
               ++ "] " ++ pad2 (hour12 lt) ++ ":" ++ pad2 (minuteOfHour lt)
               ++ " " ++ meridiem lt
           ∧ 1 ≤ hour12 lt ∧ hour12 lt ≤ 12
           ∧ hour12 lt % 12 = hourOfDay lt % 12
           ∧ (meridiem lt = "AM" ↔ hourOfDay lt < 12)) :=
  ⟨by decide, table_time_labels sampleTz 0 7200 3600 (by decide)⟩

/-! ## Table-assembly lemmas -/

theorem WeatherCol.format_length (col : WeatherCol) (data : List ℚ) :
    (col.format data).length = data.length := by
  unfold WeatherCol.format
  cases col.format_function <;> simp

theorem dictInsert_of_not_mem {α : Type} (k : String) (v : α)
    (d : List (String × α)) (hk : k ∉ d.map Prod.fst) :
    dictInsert k v d = d ++ [(k, v)] := by
  induction d with
  | nil => rfl
  | cons x rest ih =>
    obtain ⟨k2, v2⟩ := x
    simp only [List.map_cons, List.mem_cons] at hk
    push_neg at hk
    unfold dictInsert
    rw [if_neg (fun hcontra => hk.1 hcontra.symm), ih hk.2]
    simp

theorem insertHourlyCols_append (h : HourlyBlock) :
    ∀ (cols : List (String × WeatherCol)) (i : ℕ) (acc : List (String × List Cell)),
      (cols.map (fun kc => kc.2.header)).Nodup →
      (∀ s ∈ cols.map (fun kc => kc.2.header), s ∉ acc.map Prod.fst) →
      insertHourlyCols h i cols acc = acc ++ colsEnum h i cols := by
  intro cols
  induction cols with
  | nil =>
    intro i acc _ _
    simp [insertHourlyCols, colsEnum]
  | cons kc rest ih =>
    intro i acc hnd hfresh
    obtain ⟨key, col⟩ := kc
    simp only [List.map_cons, List.nodup_cons] at hnd
    unfold insertHourlyCols
    rw [dictInsert_of_not_mem _ _ _ (hfresh _ (by simp)),
        ih (i + 1) (acc ++ [(col.header, col.format (h.Variables i))]) hnd.2 ?fresh2]
    · show acc ++ [(col.header, col.format (h.Variables i))] ++ colsEnum h (i + 1) rest
        = acc ++ ((col.header, col.format (h.Variables i)) :: colsEnum h (i + 1) rest)
      simp
    case fresh2 =>
      intro s hs
      have h1 : s ∉ acc.map Prod.fst := hfresh s (by simp [hs])
      have h2 : s ≠ col.header := fun hcontra => hnd.1 (hcontra ▸ hs)
      simp [h1, h2]

theorem hourlyData_eq (tz : Tz) (h : HourlyBlock) (cols : List (String × WeatherCol))
    (hnd : (cols.map (fun kc => kc.2.header)).Nodup)
    (hth : timeHeader ∉ cols.map (fun kc => kc.2.header)) :
    hourlyData tz h cols
      = (timeHeader, (timeColumn tz h.time h.timeEnd h.interval).map Cell.str)
          :: colsEnum h 0 cols := by
  unfold hourlyData
  rw [insertHourlyCols_append h cols 0 _ hnd ?fresh]
  · rfl
  case fresh =>
    intro s hs
    simp only [List.map_cons, List.map_nil, List.mem_singleton]
    exact fun hcontra => hth (hcontra ▸ hs)

theorem colsEnum_length (h : HourlyBlock) :
    ∀ (cols : List (String × WeatherCol)) (i : ℕ),
      (colsEnum h i cols).length = cols.length := by
  intro cols
  induction cols with
  | nil => intro i; rfl
  | cons kc rest ih =>
    intro i
    obtain ⟨key, col⟩ := kc
    unfold colsEnum
    simp [ih]

theorem colsEnum_getElem? (h : HourlyBlock) :
    ∀ (cols : List (String × WeatherCol)) (i j : ℕ),
      (colsEnum h i cols)[j]? =
        (cols[j]?).map (fun kc => (kc.2.header, kc.2.format (h.Variables (i + j)))) := by
  intro cols
  induction cols with
  | nil => intro i j; simp [colsEnum]
  | cons kc rest ih =>
    intro i j
    obtain ⟨key, col⟩ := kc
    unfold colsEnum
    cases j with
    | zero => simp
    | succ j2 =>
      simp only [List.getElem?_cons_succ]
      have hrec := ih (i + 1) j2
      rw [show i + 1 + j2 = i + (j2 + 1) from by omega] at hrec
      exact hrec

theorem colsEnum_all_lengths (h : HourlyBlock) (cols : List (String × WeatherCol)) (n : ℕ) :
    ((colsEnum h 0 cols).all (fun kv => kv.2.length = n) = true)
      ↔ ∀ i < cols.length, (h.Variables i).length = n := by
  rw [List.all_eq_true]
  constructor
  · intro H i hi
    have hj : (colsEnum h 0 cols)[i]? =
        some ((cols.get ⟨i, hi⟩).2.header,
          (cols.get ⟨i, hi⟩).2.format (h.Variables (0 + i))) := by
      rw [colsEnum_getElem? h cols 0 i, List.getElem?_eq_getElem hi]
      rfl
    have hx := H _ (List.getElem?_mem hj)
    rw [Nat.zero_add] at hx
    simp only [decide_eq_true_eq] at hx
    rw [WeatherCol.format_length] at hx
    exact hx
  · intro H kv hkv
    obtain ⟨j, hj, hkvj⟩ := List.mem_iff_getElem.mp hkv
    have hjc : j < cols.length := by
      have := colsEnum_length h cols 0
      omega
    have hsome : (colsEnum h 0 cols)[j]? = some kv := by
      rw [List.getElem?_eq_getElem hj, hkvj]
    rw [colsEnum_getElem? h cols 0 j, List.getElem?_eq_getElem hjc] at hsome
    have hkv2 : ((cols.get ⟨j, hjc⟩).2.header,
        (cols.get ⟨j, hjc⟩).2.format (h.Variables (0 + j))) = kv :=
      Option.some.inj hsome
    rw [← hkv2]
    simp only [decide_eq_true_eq]
    rw [WeatherCol.format_length]
    simpa using H j hjc

/-- C1.  With distinct column headers, table assembly fails with
`AlignmentError` exactly when some requested field's raw array length
differs from the number of derived timestamps, and succeeds when every
array length equals the timestamp count. -/
theorem assembly_alignment (tz : Tz) (h : HourlyBlock)
    (cols : List (String × WeatherCol))
    (hnd : (cols.map (fun kc => kc.2.header)).Nodup)
    (hth : timeHeader ∉ cols.map (fun kc => kc.2.header)) :
    (assembleTable tz h cols = .error .alignment ↔
       ∃ i < cols.length,
         (h.Variables i).length ≠ (timeColumn tz h.time h.timeEnd h.interval).length)
    ∧ ((∀ i < cols.length,
          (h.Variables i).length = (timeColumn tz h.time h.timeEnd h.interval).length) →
        ∃ t, assembleTable tz h cols = .ok t) := by
  have hHD := hourlyData_eq tz h cols hnd hth
  unfold assembleTable
  rw [hHD]
  have hall := colsEnum_all_lengths h cols
      (timeColumn tz h.time h.timeEnd h.interval).length
  simp only [dataFrame, List.length_map]
  by_cases hc : ((colsEnum h 0 cols).all
      (fun kv => kv.2.length
        = (timeColumn tz h.time h.timeEnd h.interval).length)) = true
  · rw [if_pos hc]
    constructor
    · constructor
      · intro habs
        exact absurd habs (by simp)
      · rintro ⟨i, hi, hne⟩
        exact absurd (hall.mp hc i hi) hne
    · intro _
      exact ⟨_, rfl⟩
  · rw [if_neg hc]
    constructor
    · constructor
      · intro _
        by_contra hno
        push_neg at hno
        exact hc (hall.mpr hno)
      · intro _
        rfl
    · intro hforall
      exact absurd (hall.mpr hforall) hc

/-- Witness for C1: the declared columns with an empty time window and
empty arrays assemble successfully. -/
theorem assembly_alignment_witness :
    ((cols0.map (fun kc => kc.2.header)).Nodup
      ∧ timeHeader ∉ cols0.map (fun kc => kc.2.header)
      ∧ ∀ i < cols0.length,
          (sampleBlock.Variables i).length
            = (timeColumn sampleTz sampleBlock.time sampleBlock.timeEnd
                sampleBlock.interval).length)
    ∧ ∃ t, assembleTable sampleTz sampleBlock cols0 = .ok t :=
  ⟨⟨by decide, by decide, by decide⟩,
   (assembly_alignment sampleTz sampleBlock cols0 (by decide) (by decide)).2
     (by decide)⟩

/-- C4.  The single declared ordered column list fixes both the request's
field order and the rendered table's column order: after the timestamp
column, the i-th data column holds the i-th declared column's header and
the formatted values of the i-th requested field. -/
theorem column_order_invariant (tz : Tz) (h : HourlyBlock)
    (cols : List (String × WeatherCol))
    (hnd : (cols.map (fun kc => kc.2.header)).Nodup)
    (hth : timeHeader ∉ cols.map (fun kc => kc.2.header)) :
    requestFields cols = cols.map Prod.fst
    ∧ (hourlyData tz h cols).length = cols.length + 1
    ∧ (hourlyData tz h cols)[0]? =
        some (timeHeader, (timeColumn tz h.time h.timeEnd h.interval).map Cell.str)
    ∧ ∀ (i : ℕ) (kc : String × WeatherCol), cols[i]? = some kc →
        (requestFields cols)[i]? = some kc.1
        ∧ (hourlyData tz h cols)[i + 1]? =
            some (kc.2.header, kc.2.format (h.Variables i)) := by
  have hHD := hourlyData_eq tz h cols hnd hth
  refine ⟨rfl, ?_, ?_, ?_⟩
  · rw [hHD]
    simp [colsEnum_length]
  · rw [hHD]
    simp
  · intro i kc hkc
    constructor
    · unfold requestFields
      rw [List.getElem?_map, hkc]
      rfl
    · rw [hHD, List.getElem?_cons_succ, colsEnum_getElem? h cols 0 i, hkc]
      simp

/-- Witness for C4 at the declared column list. -/
theorem column_order_invariant_witness :
    ((cols0.map (fun kc => kc.2.header)).Nodup
      ∧ timeHeader ∉ cols0.map (fun kc => kc.2.header))
    ∧ (requestFields cols0 = cols0.map Prod.fst
       ∧ (hourlyData sampleTz sampleBlock cols0).length = cols0.length + 1
       ∧ (hourlyData sampleTz sampleBlock cols0)[0]? =
           some (timeHeader,
             (timeColumn sampleTz sampleBlock.time sampleBlock.timeEnd
               sampleBlock.interval).map Cell.str)
       ∧ ∀ (i : ℕ) (kc : String × WeatherCol), cols0[i]? = some kc →
           (requestFields cols0)[i]? = some kc.1
           ∧ (hourlyData sampleTz sampleBlock cols0)[i + 1]? =
               some (kc.2.header, kc.2.format (sampleBlock.Variables i))) :=
  ⟨⟨by decide, by decide⟩,
   column_order_invariant sampleTz sampleBlock cols0 (by decide) (by decide)⟩

end FastWeather
